import Mathlib

/-!
Verification development for the parameter-sweep acquisition controller of the
Lab-Scripts repository.  The definitions below are shallow embeddings of the
two physics measurement scripts

  * `physics/Thermoelectrics/Measurement/4stanford_4adwin_dut_frequency_response.py`
    (referred to as the frequency-response script), and
  * `physics/Thermoelectrics/Backup/Measurement/te_stability_diagram_4stanford_4adwin.py`
    (referred to as the stability-diagram script),

with machine floats modelled as rationals.  Definitions marked
"Modelled from the spec:" stand for repository code that is not part of the
two scripts (instrument drivers, measurement-object constructors).
-/

/-- Python `int(x)` truncation toward zero, as used on the nonnegative sample
counts of the scripts. -/
def pyInt (q : ℚ) : ℤ := if 0 ≤ q then ⌊q⌋ else ⌈q⌉

/-- `numpy.linspace(a, b, n)` with the default `endpoint=True`: `n` evenly
spaced values from `a` to `b`; `linspace(a, b, 1) = [a]` and
`linspace(a, b, 0) = []`, exactly as numpy behaves. -/
def linspace (a b : ℚ) : ℕ → List ℚ
  | 0 => []
  | 1 => [a]
  | n + 2 => (List.range (n + 2)).map (fun (i : ℕ) => a + (b - a) * (i : ℚ) / ((n : ℚ) + 1))

/-- `int(ceil(abs(x / s)))`, the per-axis step count of the frequency-response
script (lines 458-459 and 654-655). -/
def ceilSteps (x s : ℚ) : ℕ := (Int.ceil |x / s|).toNat

/-- Step count of the Vgs/Vds ramp of the frequency-response script
(lines 458-460): `n_steps = max(steps_vds, steps_vgs)`.  The source computes
`steps_vds` from `val_vds - val_vgs_` (it reuses the previous *gate* value, a
slip of the source kept faithfully here); `dPrev` is read by the script but
unused in the step count. -/
def nStepsFreq (gPrev g _dPrev d s : ℚ) : ℕ :=
  max (ceilSteps (d - gPrev) s) (ceilSteps (g - gPrev) s)

/-- The gate-voltage ramp of the frequency-response script in physical units
(line 461 before the division by `avv1.gain`):
`temp_vgs = linspace(val_vgs_, val_vgs, n_steps)`. -/
def freqPlanVgsPhys (gPrev g dPrev d s : ℚ) : List ℚ :=
  linspace gPrev g (nStepsFreq gPrev g dPrev d s)

/-- The gate-voltage ramp of the frequency-response script in instrument-native
units (line 461): the physical plan divided by the amplifier gain. -/
def freqPlanVgs (gPrev g dPrev d s gain : ℚ) : List ℚ :=
  (freqPlanVgsPhys gPrev g dPrev d s).map (· / gain)

/-- The gate ramp plan of the stability-diagram script in physical units
(lines 402-405): a single point when the endpoints coincide, otherwise
`linspace(prev, cur, vg_steps)`. -/
def gatePlanPhys (aPrev a : ℚ) (n : ℕ) : List ℚ :=
  if aPrev = a then [a] else linspace aPrev a n

/-- The gate ramp of the stability-diagram script in instrument-native units
(lines 403/405): the physical plan divided by `avv1.gain`. -/
def gatePlan (aPrev a gain : ℚ) (n : ℕ) : List ℚ :=
  (gatePlanPhys aPrev a n).map (· / gain)

/-- The final "Sweep DC gate voltage back to 0" ramp of the stability-diagram
script (line 601): `temp_vg = linspace(0, vg[idx_vg], vg_steps) / settings.avv1.gain`.
Note the source ramps from 0 *to* the last gate value. -/
def gateRampDownNative (vgLast gain : ℚ) (steps : ℕ) : List ℚ :=
  (linspace 0 vgLast steps).map (· / gain)

/-- `no_samples` of both scripts:
`int((vt_settling_time + vt_measurement_time) / (nplc / line_freq))`. -/
def noSamples (ts tm p : ℚ) : ℕ := (pyInt ((ts + tm) / p)).toNat

/-- `no_samples2avg` of both scripts:
`int(vt_measurement_time / (nplc / line_freq))`. -/
def noSamples2avg (tm p : ℚ) : ℕ := (pyInt (tm / p)).toNat

/-- Modelled from the spec: `GetData_Float(ch, start, count)` of the ADwin
driver (not under `src/`) returns `count` consecutive samples of the channel
buffer beginning at offset `start`; the scripts call it with
`start = no_samples - no_samples2avg` and `count = no_samples2avg`. -/
def acqRead (N n : ℕ) (buf : List ℚ) : List ℚ := (buf.drop (N - n)).take n

/-- Modelled from the spec: the ADwin channel buffer for an acquisition sized
for `N` samples; positions the hardware did not fill remain zero ("can
silently fold in garbage trailing zeros"). -/
def hwBuffer (N : ℕ) (delivered : List ℚ) : List ℚ :=
  delivered.take N ++ List.replicate (N - delivered.length) 0

/-- The window the scripts average: the `GetData_Float` read applied to the
acquisition buffer. -/
def readWindow (ts tm p : ℚ) (delivered : List ℚ) : List ℚ :=
  acqRead (noSamples ts tm p) (noSamples2avg tm p) (hwBuffer (noSamples ts tm p) delivered)

/-- `numpy.mean` of a list of rationals (mean of the empty list is 0 in this
model). -/
def listMean (l : List ℚ) : ℚ := l.sum / l.length

/-- The population variance underlying `numpy.std` (default `ddof=0`). -/
def popVar (l : List ℚ) : ℚ := (l.map (fun x => (x - listMean l) ^ 2)).sum / l.length

/-- `numpy.std` (default `ddof=0`): square root of the population variance. -/
noncomputable def npStd (l : List ℚ) : ℝ := Real.sqrt (popVar l)

/-- The per-cell stored pair of both scripts: `(mean(i), std(i))` over the
window read back from the acquisition buffer (stability-diagram script lines
446-449 for channel 1, before the per-channel scaling). -/
noncomputable def cellResult (ts tm p : ℚ) (delivered : List ℚ) : ℚ × ℝ :=
  (listMean (readWindow ts tm p delivered), npStd (readWindow ts tm p delivered))

/-- `nplc / line_freq` of the frequency-response script's settings
(`nplc = 1`, `line_freq = 50`). -/
def pC : ℚ := 1 / 50

/-- `no_samples` of the frequency-response script (line 319) with its settings
`vt_settling_time = 1`, `vt_measurement_time = 1`. -/
def noSamplesC : ℕ := noSamples 1 1 pC

/-- `no_samples2avg` of the frequency-response script (line 320). -/
def noSamples2avgC : ℕ := noSamples2avg 1 pC

/-- `settling_time` chosen by the frequency branches of the frequency-response
script (lines 481-495): 90 s below 10 Hz, 30 s from 10 to 100 Hz, 3 s above. -/
def settlingTimeAt (f : ℚ) : ℚ := if f < 10 then 90 else if f < 100 then 30 else 3

/-- `measurement_time` chosen by the frequency branches of the
frequency-response script (lines 481-495). -/
def measurementTimeAt (f : ℚ) : ℚ := if f < 10 then 30 else if f < 100 then 10 else 1

/-- `vt_samples` of the frequency-response script (line 501): the size of the
acquisition burst actually started for frequency `f`. -/
def vtSamplesAt (f : ℚ) : ℕ :=
  (Int.ceil ((settlingTimeAt f + measurementTimeAt f) / pC)).toNat

/-- `vt_samples2avg` of the frequency-response script (line 561): the size of
the measurement window of the burst.  The source computes this value and never
uses it. -/
def vtSamples2avgAt (f : ℚ) : ℕ :=
  (Int.ceil (measurementTimeAt f / pC)).toNat

/-- Content of a result file on disk: either a completely written serialized
experiment (`valid`, tagged with a version) or a file whose write is still in
progress. -/
inductive FileData where
  | valid (ver : ℕ)
  | writing
deriving DecidableEq

/-- The on-disk state relevant to the checkpoint save: the canonical result
file (`experiment.filename`) and the backup file (`experiment.backupname`),
each present or absent. -/
structure FS where
  canonical : Option FileData
  backup : Option FileData
deriving DecidableEq

/-- Crash point 1 of the save region (frequency-response script lines 639-641,
stability-diagram script lines 580-582): `if os.path.exists(filename): if
os.path.exists(backupname): os.remove(backupname)`. -/
def removeBackupStep (fs : FS) : FS :=
  if fs.canonical.isSome && fs.backup.isSome then { fs with backup := none } else fs

/-- Crash point 2 (line 642 / 583): `os.rename(filename, backupname)`, guarded
by `os.path.exists(filename)`. -/
def renameStep (fs : FS) : FS :=
  if fs.canonical.isSome then { canonical := none, backup := fs.canonical } else fs

/-- Crash point 3 (line 643 / 584): `open(filename, "wb")` creates the
canonical file; its content is not yet completely written. -/
def openStep (fs : FS) : FS := { fs with canonical := some FileData.writing }

/-- Crash point 4 (line 644 / 585): `pickle.dump(experiment, file)` completes,
leaving a valid canonical file with the new data. -/
def finishStep (d : ℕ) (fs : FS) : FS := { fs with canonical := some (FileData.valid d) }

/-- All intermediate on-disk states of one invocation of the save region,
in execution order, starting from state `fs` and writing version `d`.  The
source writes the new experiment directly into the canonical path: no
temporary file is involved at any point. -/
def saveStates (fs : FS) (d : ℕ) : List FS :=
  [fs, removeBackupStep fs, renameStep (removeBackupStep fs),
   openStep (renameStep (removeBackupStep fs)),
   finishStep d (openStep (renameStep (removeBackupStep fs)))]

/-- Whether an optional file is a completely written result file. -/
def isValidF : Option FileData → Bool
  | some (FileData.valid _) => true
  | _ => false

/-- Number of valid result files (canonical or backup) on disk. -/
def validCount (fs : FS) : ℕ :=
  (if isValidF fs.canonical then 1 else 0) + (if isValidF fs.backup then 1 else 0)

/-- The on-disk state before the very first save: neither a canonical nor a
backup file exists. -/
def fsEmpty : FS := { canonical := none, backup := none }

/-- One measurement cell's stored statistics: a `(mean, std)` pair. -/
abbrev GridCell := ℚ × ℚ

/-- The result grid over gate-voltage index and bias-voltage index for one
(temperature, heater-current) combination; `none` is an unpopulated cell. -/
def Grid (ng nb : ℕ) := Fin ng × Fin nb → Option GridCell

/-- Modelled from the spec: the grid allocation (the `StabilityDiagram`
constructor in `Objects/Backup/measurement_objects.py`, which is not under
`src/`) creates every cell unpopulated. -/
def emptyGrid (ng nb : ℕ) : Grid ng nb := fun _ => none

/-- The cell writes performed by the gate/bias double loop of the
stability-diagram script (lines 394-487) for one (temperature, heater-current)
combination, in visit order: cell `(idx_vg, idx_vb)` receives its measured
statistics when visited. -/
def sweepWrites (ng nb : ℕ) (meas : Fin ng × Fin nb → GridCell) :
    List ((Fin ng × Fin nb) × GridCell) :=
  ((List.finRange ng).product (List.finRange nb)).map (fun p => (p, meas p))

/-- Applying a list of cell writes to a grid, in order. -/
def applyWrites {ng nb : ℕ} (g : Grid ng nb)
    (ws : List ((Fin ng × Fin nb) × GridCell)) : Grid ng nb :=
  ws.foldl (fun g pv => Function.update g pv.1 (some pv.2)) g

/-- State of the heater current source `src3`: the script's tracking flag
`current_input_state` and the actual input state of the instrument. -/
structure SrcSt where
  flag : Bool
  inputOn : Bool
deriving DecidableEq

/-- The heater-source input-state switching block executed at the top of every
heater-current iteration (frequency-response script lines 389-408,
stability-diagram script lines 359-377).  `amp` is the computed rms amplitude
`amplitude2rms(val_i_h / settings.src3.gain)`; `remote` tells whether
`settings.src3.address` is set.  Faithful to the source: in the above-threshold
remote branch, `src3.operation(input_state="on", ...)` is issued but
`current_input_state` is not updated (the assignment exists only in the manual
branch). -/
def srcStep (remote : Bool) (amp : ℚ) (st : SrcSt) : SrcSt :=
  if amp < 4 / 1000 then
    if st.flag then { flag := false, inputOn := false } else st
  else
    if st.flag then st
    else if remote then { st with inputOn := true }
    else { flag := true, inputOn := true }

/-- The stored configuration of lock-in 2 in the frequency-response script
(the fields touched or read by the reference auto-switch, plus the device
address and excitation frequency). -/
structure Lockin2Cfg where
  address : Option String
  reference : String
  freq : ℚ
  sensitivity : ℚ
deriving DecidableEq

/-- The configured values of lock-in 2 (frequency-response script lines
154-166). -/
def lockin2CfgInit : Lockin2Cfg :=
  { address := some "GPIB0::2::INSTR", reference := "internal",
    freq := 5745 / 1000, sensitivity := 1 }

/-- The lock-in-2 reference auto-switch executed in every heater-current
iteration (frequency-response script lines 410-431).  `amp` is
`amplitude2rms(val_i_h / settings.src3.gain)`; the threshold is `0.1`.
Faithful to the source: the branch condition reads
`settings.lockin2.reference`, but the assignment in every branch targets
`settings.lockin2.address` (both in the remote and in the manual sub-branch);
the `reference` field itself is never written. -/
def lockin2AutoSwitch (amp : ℚ) (cfg : Lockin2Cfg) : Lockin2Cfg :=
  if amp < 1 / 10 then
    if cfg.reference = "external" then { cfg with address := some "internal" } else cfg
  else
    if cfg.reference = "external" then cfg else { cfg with address := some "external" }

/-- Modelled from the spec: `bin2voltage` of the ADwin driver (not under
`src/`) converts a raw code at resolution `bits` to volts over the +-10 V
input range. -/
def bin2voltage (raw : ℚ) (bits : ℕ) : ℚ := raw * 20 / 2 ^ bits - 10

/-- The channel-3 calibration formula of both scripts (frequency-response
script line 517/574, stability-diagram script line 457):
`bin2voltage(ai3, bits) / lockin2.sensitivity * 10 / avi.gain`.  The divisions
are performed unconditionally; no zero-denominator check exists anywhere in
the scripts. -/
def calibrateCh3 (raw sens gain : ℚ) (bits : ℕ) : ℚ :=
  bin2voltage raw bits / sens * 10 / gain

/-- A `linspace` with at least two points has exactly the requested number of
points. -/
theorem linspace_length (a b : ℚ) (n : ℕ) : (linspace a b (n + 2)).length = n + 2 := by
  simp [linspace]

/-- A `linspace` with at least two points starts at its left endpoint. -/
theorem linspace_head (a b : ℚ) (n : ℕ) : (linspace a b (n + 2)).head? = some a := by
  rw [linspace, List.range_succ_eq_map]
  simp

/-- A `linspace` with at least two points ends exactly at its right endpoint. -/
theorem linspace_last (a b : ℚ) (n : ℕ) : (linspace a b (n + 2)).getLast? = some b := by
  rw [linspace, List.getLast?_eq_getElem?]
  have h : ((n : ℚ) + 1) ≠ 0 := by positivity
  simp only [List.length_map, List.length_range]
  rw [List.getElem?_map, List.getElem?_range (by omega : n + 2 - 1 < n + 2)]
  simp only [Option.map_some', Option.some.injEq]
  have h2 : ((n + 2 - 1 : ℕ) : ℚ) = (n : ℚ) + 1 := by push_cast; ring
  rw [h2, mul_div_assoc, div_self h, mul_one]
  ring

/-- A `linspace` with at least two points is strictly increasing when the
endpoints are in increasing order. -/
theorem linspace_chain_lt (a b : ℚ) (n : ℕ) (hab : a < b) :
    List.Chain' (· < ·) (linspace a b (n + 2)) := by
  rw [linspace, List.chain'_map]
  rw [show n + 2 = (n + 1) + 1 from rfl, List.chain'_range_succ]
  intro m hm
  have hba : (0:ℚ) < b - a := sub_pos.mpr hab
  have hd : (0:ℚ) < (n : ℚ) + 1 := by positivity
  apply add_lt_add_left
  rw [div_lt_div_iff_of_pos_right hd]
  have h1 : (m : ℚ) < (m : ℚ) + 1 := by linarith
  calc (b - a) * (m : ℚ) < (b - a) * ((m : ℚ) + 1) := mul_lt_mul_of_pos_left h1 hba
    _ = (b - a) * ((m + 1 : ℕ) : ℚ) := by push_cast; ring

/-- A `linspace` with at least two points is strictly decreasing when the
endpoints are in decreasing order. -/
theorem linspace_chain_gt (a b : ℚ) (n : ℕ) (hab : b < a) :
    List.Chain' (· > ·) (linspace a b (n + 2)) := by
  rw [linspace, List.chain'_map]
  rw [show n + 2 = (n + 1) + 1 from rfl, List.chain'_range_succ]
  intro m hm
  have hba : b - a < 0 := sub_neg.mpr hab
  have hd : (0:ℚ) < (n : ℚ) + 1 := by positivity
  apply add_lt_add_left
  rw [div_lt_div_iff_of_pos_right hd]
  have h1 : (m : ℚ) < (m : ℚ) + 1 := by linarith
  calc (b - a) * ((m + 1 : ℕ) : ℚ) = (b - a) * ((m : ℚ) + 1) := by push_cast; ring
    _ < (b - a) * (m : ℚ) := mul_lt_mul_of_neg_left h1 hba

/-- C2 (counterexample): the claim asserts the ramp plan always has length
`max(2, ceil(|b - a| / s))` and ends at `b`.  For `a = 0`, `b = 1`, `s = 1`
(with the bias endpoints also 0 and 1) the computed step count is
`max(ceil(1), ceil(1)) = 1`, there is no rounding up to 2, and the produced
plan is the single point `[0]`: it has length 1 and never reaches `b = 1`. -/
theorem freq_plan_no_min_two_clamp :
    freqPlanVgsPhys 0 1 0 1 1 = [0] ∧
    ¬ ((freqPlanVgsPhys 0 1 0 1 1).length = 2 ∧
       (freqPlanVgsPhys 0 1 0 1 1).getLast? = some 1) := by
  have h : nStepsFreq 0 1 0 1 1 = 1 := by
    norm_num [nStepsFreq, ceilSteps]
  have hplan : freqPlanVgsPhys 0 1 0 1 1 = [0] := by
    rw [freqPlanVgsPhys, h]
    rfl
  refine ⟨hplan, ?_⟩
  rw [hplan]
  simp

/-- C2 (amended): whenever the step count `n_steps = max(steps_vds, steps_vgs)`
computed by the frequency-response script (with `steps_vds` erroneously based
on the previous gate value) is at least 2, the plan is the linearly spaced
sequence of exactly `n_steps` points from `from` to `to`, strictly monotonic
in the direction of the ramp; the source applies no minimum-2 clamp, so this
is conditional on the computed count. -/
theorem freq_ramp_plan_props (gPrev g dPrev d s : ℚ)
    (h2 : 2 ≤ nStepsFreq gPrev g dPrev d s) :
    (freqPlanVgsPhys gPrev g dPrev d s).length = nStepsFreq gPrev g dPrev d s ∧
    (freqPlanVgsPhys gPrev g dPrev d s).head? = some gPrev ∧
    (freqPlanVgsPhys gPrev g dPrev d s).getLast? = some g ∧
    (gPrev < g → List.Chain' (· < ·) (freqPlanVgsPhys gPrev g dPrev d s)) ∧
    (g < gPrev → List.Chain' (· > ·) (freqPlanVgsPhys gPrev g dPrev d s)) := by
  obtain ⟨m, hm⟩ : ∃ m, nStepsFreq gPrev g dPrev d s = m + 2 :=
    ⟨nStepsFreq gPrev g dPrev d s - 2, by omega⟩
  rw [freqPlanVgsPhys, hm]
  exact ⟨linspace_length gPrev g m, linspace_head gPrev g m, linspace_last gPrev g m,
    fun hab => linspace_chain_lt gPrev g m hab,
    fun hab => linspace_chain_gt gPrev g m hab⟩

/-- C2 (witness): concrete instance of the amended ramp-plan theorem at
`from = 0`, `to = 2`, `s = 1`: the plan `[0, 2]` ends at 2 and is strictly
increasing. -/
theorem freq_ramp_plan_props_witness :
    2 ≤ nStepsFreq 0 2 0 0 1 ∧
    (freqPlanVgsPhys 0 2 0 0 1).getLast? = some 2 ∧
    List.Chain' (· < ·) (freqPlanVgsPhys 0 2 0 0 1) := by
  have h2 : 2 ≤ nStepsFreq 0 2 0 0 1 := by
    norm_num [nStepsFreq, ceilSteps]
  exact ⟨h2, (freq_ramp_plan_props 0 2 0 0 1 h2).2.2.1,
    (freq_ramp_plan_props 0 2 0 0 1 h2).2.2.2.1 (by norm_num)⟩

/-- C3: the ramp planner of the stability-diagram script applied to equal
endpoints returns exactly the single-element sequence `[a]` (in physical
units; `[a / gain]` after the conversion to instrument-native units): no
intermediate ramp step is performed. -/
theorem gate_plan_equal_endpoints (a gain : ℚ) (n : ℕ) :
    gatePlanPhys a a n = [a] ∧ gatePlan a a gain n = [a / gain] := by
  constructor
  · simp [gatePlanPhys]
  · simp [gatePlan, gatePlanPhys]

/-- C7 (code bug): the final "Sweep DC gate voltage back to 0" of the
stability-diagram script, evaluated at the script's values (last gate value
100 V, `avv1.gain = 10`, `vg_steps = 100`), programs a ramp that *starts* at 0
and *ends* at 10 native units (100 V at the device) — the reverse of the
ramp-down announced by the script's own log line; the gate is left at full
voltage when the sweep completes. -/
theorem final_gate_ramp_reversed :
    (gateRampDownNative 100 10 100).head? = some 0 ∧
    (gateRampDownNative 100 10 100).getLast? = some 10 ∧
    (10 : ℚ) ≠ 0 := by
  refine ⟨?_, ?_, by norm_num⟩
  · show ((linspace 0 100 (98 + 2)).map (· / 10)).head? = some 0
    rw [List.head?_map, linspace_head]
    norm_num
  · show ((linspace 0 100 (98 + 2)).map (· / 10)).getLast? = some 10
    rw [List.getLast?_map, linspace_last]
    norm_num

/-- C1 (counterexample): on the very first invocation of the save region
(no canonical and no backup file exist yet) the source opens the canonical
path and writes the experiment into it directly — there is no temporary file
— so the intermediate state right after the `open` has zero valid result
files on disk, refuting the claimed "at least one valid result file exists at
every intermediate point". -/
theorem save_first_invocation_no_valid_file :
    openStep (renameStep (removeBackupStep fsEmpty)) ∈ saveStates fsEmpty 1 ∧
    validCount (openStep (renameStep (removeBackupStep fsEmpty))) = 0 := by
  decide

/-- C1 (amended): the save region writes the new experiment directly into the
canonical path (no temporary file): it deletes a stale backup and renames the
prior canonical file to the backup name only when a canonical file exists,
then rewrites the canonical path in place.  When a valid canonical file
existed before the save, every intermediate state keeps at least one valid
result file, and the final state holds the new canonical file plus the
previous one as backup; at most one canonical and one backup ever exist.  (On
the very first save this protection does not hold, see the counterexample.) -/
theorem save_rotation_preserves_valid_file (v d : ℕ) (bk : Option FileData) :
    (∀ s ∈ saveStates { canonical := some (FileData.valid v), backup := bk } d,
        1 ≤ validCount s) ∧
    (saveStates { canonical := some (FileData.valid v), backup := bk } d).getLast? =
      some { canonical := some (FileData.valid d), backup := some (FileData.valid v) } := by
  constructor
  · intro s hs
    simp only [saveStates, List.mem_cons, List.not_mem_nil, or_false] at hs
    rcases hs with rfl | rfl | rfl | rfl | rfl <;>
      rcases bk with _ | fd <;>
        simp [removeBackupStep, renameStep, openStep, finishStep, validCount, isValidF]
  · rcases bk with _ | fd <;> rfl

/-- C1 (witness): concrete instance of the amended save theorem: starting from
a valid canonical file (version 0) and no backup, the state right after the
in-place `open` still has a valid file on disk (the rotated backup). -/
theorem save_rotation_preserves_valid_file_witness :
    1 ≤ validCount (openStep (renameStep (removeBackupStep
      { canonical := some (FileData.valid 0), backup := none }))) :=
  (save_rotation_preserves_valid_file 0 1 none).1 _ (by decide)

/-- C4 (code bug): the frequency-response script sizes the acquisition burst
from the frequency-dependent settling and measurement times (200 samples at
100 Hz: 150 settling + 50 measurement), but reads the window to average using
the module-level `no_samples`/`no_samples2avg` computed from the fixed
settings times (offset 50, 50 samples).  The read window therefore ends at
sample 100, before the burst's measurement window even starts at sample 150:
the averaged samples all lie in the settling portion.  (`vt_samples2avg` — the
correct window size — is computed on line 561 and never used.) -/
theorem read_window_misses_measurement_window :
    noSamplesC = 100 ∧ noSamples2avgC = 50 ∧
    vtSamplesAt 100 = 200 ∧ vtSamples2avgAt 100 = 50 ∧
    noSamplesC ≤ vtSamplesAt 100 - vtSamples2avgAt 100 := by
  have h1 : noSamplesC = 100 := by
    norm_num [noSamplesC, noSamples, pyInt, pC]
    rfl
  have h2 : noSamples2avgC = 50 := by
    norm_num [noSamples2avgC, noSamples2avg, pyInt, pC]
    rfl
  have h3 : vtSamplesAt 100 = 200 := by
    norm_num [vtSamplesAt, settlingTimeAt, measurementTimeAt, pC]
    rfl
  have h4 : vtSamples2avgAt 100 = 50 := by
    norm_num [vtSamples2avgAt, measurementTimeAt, pC]
    rfl
  exact ⟨h1, h2, h3, h4, by rw [h1, h3, h4]; norm_num⟩

/-- C9 (code bug): processing one above-threshold heater amplitude in remote
mode from the initial state switches the source input on but leaves the
tracking flag `current_input_state` at `False` (the flag assignment exists
only in the manual branch), so the flag no longer equals the actual input
state; a following below-threshold amplitude then finds the flag `False` and
emits no input-off switch, leaving the input on across a downward threshold
crossing.  In manual mode the same sequence maintains the flag correctly. -/
theorem heater_input_flag_diverges :
    (srcStep true 2 ⟨false, false⟩).flag = false ∧
    (srcStep true 2 ⟨false, false⟩).inputOn = true ∧
    (srcStep true 0 (srcStep true 2 ⟨false, false⟩)).inputOn = true ∧
    (srcStep true 0 (srcStep true 2 ⟨false, false⟩)).flag = false ∧
    (srcStep false 2 ⟨false, false⟩).flag = true := by
  norm_num [srcStep]

/-- C10 (code bug): one above-threshold iteration of the lock-in-2 reference
auto-switch overwrites the stored device address
`settings.lockin2.address` with the mode string `"external"` (the configured
VISA address is lost), while the `reference` field — the one the branch
condition reads — keeps its initial value; the claimed frame condition that
the address is preserved is violated on the first such iteration. -/
theorem lockin2_address_clobbered :
    lockin2CfgInit.address = some "GPIB0::2::INSTR" ∧
    (lockin2AutoSwitch 2 lockin2CfgInit).address = some "external" ∧
    (lockin2AutoSwitch 2 lockin2CfgInit).reference = "internal" := by
  norm_num [lockin2AutoSwitch, lockin2CfgInit]
  refine ⟨?_, ?_⟩ <;> rw [if_neg (by decide : ¬("internal" = "external"))]

/-- Dropping from a replicated list leaves a replicated list. -/
theorem replicate_drop (x : ℚ) (n k : ℕ) :
    (List.replicate n x).drop k = List.replicate (n - k) x := by
  induction k generalizing n with
  | zero => simp
  | succ k ih =>
    cases n with
    | zero => simp
    | succ n => simp [List.replicate_succ, ih]

/-- Taking from a replicated list leaves a replicated list. -/
theorem replicate_take (x : ℚ) (n k : ℕ) :
    (List.replicate n x).take k = List.replicate (min k n) x := by
  induction k generalizing n with
  | zero => simp
  | succ k ih =>
    cases n with
    | zero => simp
    | succ n => simp [List.replicate_succ, ih n, Nat.succ_min_succ]

/-- `no_samples` evaluated at the scripts' settings values
`vt_settling_time = 1`, `vt_measurement_time = 1`, `nplc/line_freq = 1/50`. -/
theorem noSamples_eval : noSamples 1 1 (1 / 50) = 100 := by
  norm_num [noSamples, pyInt]; rfl

/-- `no_samples2avg` evaluated at the same settings values. -/
theorem noSamples2avg_eval : noSamples2avg 1 (1 / 50) = 50 := by
  norm_num [noSamples2avg, pyInt]; rfl

/-- The fixed read window applied to a buffer holding only 75 of the 100
requested samples (value 2), the rest zero padding: the window mixes 25
delivered samples with 25 padding zeros. -/
theorem read_window_75_of_100 : readWindow 1 1 (1 / 50) (List.replicate 75 2) =
    List.replicate 25 2 ++ List.replicate 25 0 := by
  rw [readWindow, noSamples_eval, noSamples2avg_eval, hwBuffer]
  simp only [List.length_replicate]
  rw [List.take_of_length_le (by norm_num)]
  rw [acqRead, show (100 - 50 : ℕ) = 50 from rfl, show (100 - 75 : ℕ) = 25 from rfl]
  rw [List.drop_append_of_le_length (by simp)]
  rw [replicate_drop, show (75 - 50 : ℕ) = 25 from rfl]
  exact List.take_of_length_le (by simp)

/-- Mean of the mixed window: the padding zeros are silently folded in. -/
theorem mean_padded_window : listMean (List.replicate 25 2 ++ List.replicate 25 0) = 1 := by
  rw [listMean]
  simp [List.sum_replicate]
  norm_num

/-- Population variance of the mixed window. -/
theorem var_padded_window : popVar (List.replicate 25 2 ++ List.replicate 25 0) = 1 := by
  rw [popVar, mean_padded_window]
  simp [List.map_append, List.map_replicate, List.sum_replicate]
  norm_num

/-- C5 (counterexample): with the hardware delivering only 75 of the 100
requested samples (all of value 2), the scripts do not fail: they compute
`(mean, std) = (1, 1)` over the fixed window — half delivered samples, half
padding zeros — instead of the delivered data's `(2, 0)`.  No
`AcquisitionIncompleteError` exists anywhere in the code and no abort is
triggered: the claimed failure behaviour is refuted at this concrete input. -/
theorem under_delivery_silently_averaged :
    cellResult 1 1 (1 / 50) (List.replicate 75 2) = (1, 1) := by
  rw [cellResult, read_window_75_of_100]
  simp only [Prod.mk.injEq]
  exact ⟨mean_padded_window, by rw [npStd, var_padded_window]; norm_num⟩

/-- C5 (amended): the scripts have no under-delivery guard: the read-and-
average step is a total computation over a fixed window of the (zero-padded)
acquisition buffer.  If the delivered samples end before the window starts,
the window consists entirely of padding zeros and the stored mean is exactly
0 — silently, with no error and no sweep abort. -/
theorem read_window_zero_padding (ts tm p : ℚ) (delivered : List ℚ)
    (h1 : noSamples2avg tm p ≤ noSamples ts tm p)
    (h2 : delivered.length ≤ noSamples ts tm p - noSamples2avg tm p) :
    readWindow ts tm p delivered = List.replicate (noSamples2avg tm p) 0 ∧
    listMean (readWindow ts tm p delivered) = 0 := by
  set N := noSamples ts tm p with hN
  set n := noSamples2avg tm p with hn
  have hdN : delivered.length ≤ N := by omega
  have htake : delivered.take N = delivered := List.take_of_length_le hdN
  have key : readWindow ts tm p delivered = List.replicate n 0 := by
    rw [readWindow, acqRead, hwBuffer, ← hN, ← hn, htake]
    have hsplit : N - n = delivered.length + (N - n - delivered.length) := by omega
    rw [hsplit, List.drop_append, replicate_drop]
    rw [replicate_take]
    congr 1
    omega
  refine ⟨key, ?_⟩
  rw [key, listMean]
  simp

/-- C5 (witness): concrete instance of the zero-padding theorem: with no
samples delivered at all, the stored mean is exactly 0. -/
theorem read_window_zero_padding_witness :
    readWindow 1 1 (1 / 50) [] = List.replicate (noSamples2avg 1 (1 / 50)) 0 ∧
    listMean (readWindow 1 1 (1 / 50) []) = 0 :=
  read_window_zero_padding 1 1 (1 / 50) []
    (by rw [noSamples_eval, noSamples2avg_eval]; norm_num)
    (by rw [noSamples_eval, noSamples2avg_eval]; simp)

/-- C6 (counterexample): the channel-3 conversion applied with a zero
sensitivity does not fail: it is a total function that performs the division
unconditionally and returns a number (0 in the rational model, where `q / 0 =
0`; numpy emits non-finite values).  No `CalibrationError` exists anywhere in
the code and no zero-denominator check precedes the division, refuting the
claimed rejection. -/
theorem calibration_zero_sensitivity_no_error :
    calibrateCh3 (2 ^ 18) 0 1 18 = 0 := by
  norm_num [calibrateCh3, bin2voltage]

/-- C6 (amended): the calibration conversion performs its scaling divisions
unconditionally, with no zero-denominator check and no error path; for any
nonzero sensitivity and gain the divisions genuinely rescale the raw value:
multiplying the result back by sensitivity and gain recovers
`bin2voltage(raw) * 10`. -/
theorem calibration_division_unconditional (raw sens gain : ℚ) (bits : ℕ)
    (hs : sens ≠ 0) (hg : gain ≠ 0) :
    calibrateCh3 raw sens gain bits * sens * gain = bin2voltage raw bits * 10 := by
  field_simp [calibrateCh3]
  ring

/-- C6 (witness): concrete instance of the unconditional-division theorem at
full-scale raw code, sensitivity 1 and gain 1. -/
theorem calibration_division_unconditional_witness :
    calibrateCh3 (2 ^ 18) 1 1 18 * 1 * 1 = bin2voltage (2 ^ 18) 18 * 10 :=
  calibration_division_unconditional (2 ^ 18) 1 1 18 (by norm_num) (by norm_num)

/-- A cell not targeted by any write in the list keeps its previous content. -/
theorem applyWrites_not_mem {ng nb : ℕ} (g : Grid ng nb)
    (ws : List ((Fin ng × Fin nb) × GridCell)) (p : Fin ng × Fin nb)
    (hp : p ∉ ws.map Prod.fst) : applyWrites g ws p = g p := by
  induction ws generalizing g with
  | nil => rfl
  | cons hd tl ih =>
    simp only [List.map_cons, List.mem_cons, not_or] at hp
    have step : applyWrites g (hd :: tl) =
        applyWrites (Function.update g hd.1 (some hd.2)) tl := rfl
    rw [step, ih _ hp.2, Function.update_noteq hp.1]

/-- When the write targets are pairwise distinct, a written cell holds exactly
the value written to it. -/
theorem applyWrites_mem {ng nb : ℕ} (g : Grid ng nb)
    (ws : List ((Fin ng × Fin nb) × GridCell)) (p : Fin ng × Fin nb) (v : GridCell)
    (hnd : (ws.map Prod.fst).Nodup) (hm : (p, v) ∈ ws) : applyWrites g ws p = some v := by
  induction ws generalizing g with
  | nil => cases hm
  | cons hd tl ih =>
    simp only [List.map_cons, List.nodup_cons] at hnd
    have step : applyWrites g (hd :: tl) =
        applyWrites (Function.update g hd.1 (some hd.2)) tl := rfl
    rcases List.mem_cons.mp hm with h | h
    · cases h
      rw [step, applyWrites_not_mem _ _ _ hnd.1, Function.update_same]
    · rw [step]
      exact ih _ hnd.2 h

/-- The write targets of the gate/bias double loop are exactly the grid
indices in visit order. -/
theorem sweepWrites_fst (ng nb : ℕ) (meas : Fin ng × Fin nb → GridCell) :
    (sweepWrites ng nb meas).map Prod.fst = (List.finRange ng).product (List.finRange nb) := by
  rw [sweepWrites, List.map_map]
  rw [show (Prod.fst ∘ fun (p : Fin ng × Fin nb) => (p, meas p)) = id from rfl, List.map_id]

/-- C8: starting from the freshly allocated grid (every cell unpopulated),
the gate/bias double loop targets each cell exactly once (the visit indices
are pairwise distinct, so no populated cell is ever written again), after the
full loop every cell holds exactly its measured statistics, and after any
prefix of the loop — e.g. when the experiment aborts early — every unvisited
cell is still `none`: distinguishable from a populated cell holding the value
zero. -/
theorem grid_cells_populated_once (ng nb : ℕ) (meas : Fin ng × Fin nb → GridCell) :
    ((sweepWrites ng nb meas).map Prod.fst).Nodup ∧
    (∀ p, applyWrites (emptyGrid ng nb) (sweepWrites ng nb meas) p = some (meas p)) ∧
    (∀ (k : ℕ) (p : Fin ng × Fin nb),
        p ∉ ((sweepWrites ng nb meas).take k).map Prod.fst →
        applyWrites (emptyGrid ng nb) ((sweepWrites ng nb meas).take k) p = none) := by
  have hnd : ((sweepWrites ng nb meas).map Prod.fst).Nodup := by
    rw [sweepWrites_fst]
    exact List.Nodup.product (List.nodup_finRange ng) (List.nodup_finRange nb)
  refine ⟨hnd, ?_, ?_⟩
  · intro p
    apply applyWrites_mem _ _ _ _ hnd
    rw [sweepWrites]
    apply List.mem_map.mpr
    refine ⟨p, ?_, rfl⟩
    obtain ⟨p1, p2⟩ := p
    exact List.mem_product.mpr ⟨List.mem_finRange _, List.mem_finRange _⟩
  · intro k p hp
    rw [applyWrites_not_mem _ _ _ hp]
    rfl

/-- C8 (witness): on a 2-by-1 grid whose measured statistics are all zero,
after the full loop cell (1,0) holds `some (0, 0)` — a *populated* zero —
while after only the first visit the same cell is `none`: the two situations
are distinguishable. -/
theorem grid_cells_populated_once_witness :
    applyWrites (emptyGrid 2 1) (sweepWrites 2 1 (fun _ => ((0 : ℚ), (0 : ℚ)))) (1, 0) =
      some ((0 : ℚ), (0 : ℚ)) ∧
    applyWrites (emptyGrid 2 1) ((sweepWrites 2 1 (fun _ => ((0 : ℚ), (0 : ℚ)))).take 1) (1, 0) =
      none :=
  ⟨(grid_cells_populated_once 2 1 _).2.1 (1, 0),
   (grid_cells_populated_once 2 1 _).2.2 1 (1, 0) (by decide)⟩
